import Mathlib

/-!
Shallow embedding of the seal-chess game core: the `GameInstance` state
machine and `gameManager` registry (src/game/game-manager.js), the
synchronous SQLite layer (src/db/index.js), and the Socket.IO event
handlers (src/game/socket-handler.js).  The chess.js rules engine is
external to the core and is modelled as an abstract capability record
`ChessEngine` over an arbitrary position type; a trivial toy engine is
provided for concrete evaluation.
-/

namespace SealChess

/-- Player colors. -/
inductive Color where
  | white
  | black
deriving DecidableEq, Repr

/-- Game status values stored in `GameInstance.status` and in the
`games.status` column ('waiting' | 'active' | 'completed' | 'abandoned'). -/
inductive Status where
  | waiting
  | active
  | completed
  | abandoned
deriving DecidableEq, Repr

/-- Game results stored in the `games.result` column: the string literals
'white_wins' | 'black_wins' | 'draw' used by `GameInstance.endGame`. -/
inductive GameResult where
  | white_wins
  | black_wins
  | draw
deriving DecidableEq, Repr

/-- Per-player outcome literals 'win' | 'loss' | 'draw' passed to
`db.updatePlayerStats`. -/
inductive Outcome where
  | win
  | loss
  | draw
deriving DecidableEq, Repr

/-- A row of the `players` table. -/
structure PlayerRow where
  id : String
  displayName : String
  wins : Nat
  losses : Nat
  draws : Nat
  score : Nat
deriving DecidableEq, Repr

/-- A row of the `games` table.  `white_player_id` is set by every insert
(`db.createGame`), so it is modelled as a plain `String`; `black_player_id`
is genuinely NULL until a join. -/
structure GameRow where
  id : String
  whitePlayerId : String
  blackPlayerId : Option String
  status : Status
  result : Option GameResult
  fen : String
  pgn : Option String
deriving DecidableEq, Repr

/-- A row of the `moves` table (append-only; the autoincrement id is the
list position). -/
structure MoveRow where
  gameId : String
  moveNumber : Nat
  playerId : String
  fromSquare : String
  toSquare : String
  san : String
  fenAfter : String
deriving DecidableEq, Repr

/-- The SQLite database state: the three tables of
migrations/001_initial.sql. -/
structure DB where
  players : List PlayerRow
  games : List GameRow
  moves : List MoveRow
deriving DecidableEq, Repr

/-- The schema default for `games.fen`. -/
def initialFen : String := "rnbqkbnr/pppppppp/8/8/8/8/PPPPPPPP/RNBQKBNR w KQkq - 0 1"

namespace Db

/-- db.createPlayer: INSERT INTO players (id, display_name) VALUES (?, ?). -/
def createPlayer (db : DB) (id displayName : String) : DB :=
  { db with players := db.players ++ [⟨id, displayName, 0, 0, 0, 0⟩] }

/-- db.getPlayer: SELECT * FROM players WHERE id = ?. -/
def getPlayer (db : DB) (id : String) : Option PlayerRow :=
  db.players.find? (fun p => p.id = id)

/-- The per-row effect of db.updatePlayerStats: bump the column selected by
colMap and add the scoreMap points (win = 3, draw = 1, loss = 0). -/
def bumpStats (p : PlayerRow) (o : Outcome) : PlayerRow :=
  match o with
  | .win => { p with wins := p.wins + 1, score := p.score + 3 }
  | .draw => { p with draws := p.draws + 1, score := p.score + 1 }
  | .loss => { p with losses := p.losses + 1, score := p.score + 0 }

/-- db.updatePlayerStats: UPDATE players SET col = col + 1, score = score + ?
WHERE id = ?.  The id argument may be NULL (black player of a waiting game),
in which case no row matches. -/
def updatePlayerStats (db : DB) (playerId : Option String) (o : Outcome) : DB :=
  { db with players := db.players.map (fun p => if some p.id = playerId then bumpStats p o else p) }

/-- db.createGame: INSERT INTO games (id, white_player_id, status) with
schema defaults for the remaining columns. -/
def createGame (db : DB) (id whitePlayerId : String) : DB :=
  { db with games := db.games ++ [⟨id, whitePlayerId, none, .waiting, none, initialFen, none⟩] }

/-- db.getGame: SELECT * FROM games WHERE id = ?. -/
def getGame (db : DB) (id : String) : Option GameRow :=
  db.games.find? (fun g => g.id = id)

/-- db.joinGame: UPDATE games SET black_player_id = ?, status = 'active'
WHERE id = ?. -/
def joinGame (db : DB) (gameId blackPlayerId : String) : DB :=
  { db with games := db.games.map (fun g =>
      if g.id = gameId then { g with blackPlayerId := some blackPlayerId, status := .active } else g) }

/-- db.updateGameState: UPDATE games SET fen = ?, pgn = ? WHERE id = ?. -/
def updateGameState (db : DB) (gameId fen pgn : String) : DB :=
  { db with games := db.games.map (fun g =>
      if g.id = gameId then { g with fen := fen, pgn := some pgn } else g) }

/-- db.completeGame: UPDATE games SET status = 'completed', result = ?
WHERE id = ?. -/
def completeGame (db : DB) (gameId : String) (result : GameResult) : DB :=
  { db with games := db.games.map (fun g =>
      if g.id = gameId then { g with status := .completed, result := some result } else g) }

/-- db.recordMove: INSERT INTO moves (...) VALUES (...). -/
def recordMove (db : DB) (gameId : String) (moveNumber : Nat)
    (playerId fromSquare toSquare san fenAfter : String) : DB :=
  { db with moves := db.moves ++ [⟨gameId, moveNumber, playerId, fromSquare, toSquare, san, fenAfter⟩] }

/-- db.getGameMoves: SELECT * FROM moves WHERE game_id = ? ORDER BY
move_number ASC. -/
def getGameMoves (db : DB) (gameId : String) : List MoveRow :=
  (db.moves.filter (fun m => m.gameId = gameId)).insertionSort
    (fun a b => a.moveNumber ≤ b.moveNumber)

end Db

/-- The move candidate object passed to chess.move: { from, to, promotion? }. -/
structure MoveObj where
  fromSq : String
  toSq : String
  promotion : Option String
deriving DecidableEq, Repr

/-- A verbose move as returned by chess.move / chess.moves({verbose:true});
only the fields the core reads are modelled. -/
structure VerboseMove where
  fromSq : String
  toSq : String
  san : String
  captured : Option String
  piece : String
deriving DecidableEq, Repr

/-- The outcome of a chess.move call: a legal move with the successor
position, a null return (older chess.js), or a thrown exception (chess.js
v1 throws on illegal input); the last two are both failures without
mutation. -/
inductive MoveOutcome (Pos : Type) where
  | legal (m : VerboseMove) (next : Pos)
  | illegal
  | faulted
deriving DecidableEq, Repr

/-- The external chess.js rules-engine capability, over an abstract
position type.  Each field is one of the engine methods the core calls. -/
structure ChessEngine (Pos : Type) where
  init : Pos
  ofFen : String → Pos
  turn : Pos → Color
  moveFn : Pos → MoveObj → MoveOutcome Pos
  fen : Pos → String
  pgn : Pos → String
  inCheck : Pos → Bool
  isCheckmate : Pos → Bool
  isStalemate : Pos → Bool
  isDraw : Pos → Bool
  isThreefoldRepetition : Pos → Bool
  isInsufficientMaterial : Pos → Bool
  isGameOver : Pos → Bool
  movesVerbose : Pos → List VerboseMove

/-- The payload of a game-over broadcast, covering the shapes
{type, winner?, result, reason?, message?} built by checkGameEnd, resign,
acceptDraw and the disconnect timer. -/
structure GameOverEvent where
  type : String
  winner : Option Color
  result : GameResult
  reason : Option String
  message : Option String
deriving DecidableEq, Repr

/-- In-memory per-game session state (class GameInstance).  JS leaves
`gameReadySent` undefined (falsy) until the socket handler assigns it, so it
is modelled as a `Bool` field starting `false`; `disconnectTimers` is the
key set of the timers object (player ids with a pending timer). -/
structure GameInstance (Pos : Type) where
  gameId : String
  chess : Pos
  whitePlayerId : String
  blackPlayerId : Option String
  whiteSocketId : Option String
  blackSocketId : Option String
  whiteConnected : Bool
  blackConnected : Bool
  moveCount : Nat
  status : Status
  drawOffer : Option String
  disconnectTimers : List String
  gameReadySent : Bool
deriving DecidableEq, Repr

namespace GameInstance

variable {Pos : Type}

/-- The GameInstance constructor. -/
def new (E : ChessEngine Pos) (gameId whitePlayerId : String) : GameInstance Pos :=
  { gameId := gameId
    chess := E.init
    whitePlayerId := whitePlayerId
    blackPlayerId := none
    whiteSocketId := none
    blackSocketId := none
    whiteConnected := false
    blackConnected := false
    moveCount := 0
    status := .waiting
    drawOffer := none
    disconnectTimers := []
    gameReadySent := false }

/-- GameInstance.getPlayerColor. -/
def getPlayerColor (g : GameInstance Pos) (playerId : String) : Option Color :=
  if playerId = g.whitePlayerId then some .white
  else if some playerId = g.blackPlayerId then some .black
  else none

/-- GameInstance.isPlayerTurn. -/
def isPlayerTurn (E : ChessEngine Pos) (g : GameInstance Pos) (playerId : String) : Bool :=
  let turn := E.turn g.chess
  if turn = .white ∧ playerId = g.whitePlayerId then true
  else if turn = .black ∧ some playerId = g.blackPlayerId then true
  else false

/-- GameInstance.endGame: mark completed, persist the result, and apply
both players' stat updates. -/
def endGame (g : GameInstance Pos) (db : DB) (result : GameResult) :
    GameInstance Pos × DB :=
  let g1 := { g with status := Status.completed }
  let db1 := Db.completeGame db g1.gameId result
  let db2 :=
    match result with
    | .white_wins =>
        Db.updatePlayerStats (Db.updatePlayerStats db1 (some g1.whitePlayerId) .win)
          g1.blackPlayerId .loss
    | .black_wins =>
        Db.updatePlayerStats (Db.updatePlayerStats db1 g1.blackPlayerId .win)
          (some g1.whitePlayerId) .loss
    | .draw =>
        Db.updatePlayerStats (Db.updatePlayerStats db1 (some g1.whitePlayerId) .draw)
          g1.blackPlayerId .draw
  (g1, db2)

/-- GameInstance.checkGameEnd: ask the rules engine for terminal
classification and, if terminal, end the game.  The draw-reason string
mirrors the JS assignment order (insufficient material overwrites
threefold repetition overwrites the fifty-move default). -/
def checkGameEnd (E : ChessEngine Pos) (g : GameInstance Pos) (db : DB) :
    GameInstance Pos × DB × Option GameOverEvent :=
  if E.isCheckmate g.chess then
    let winner : Color := if E.turn g.chess = Color.white then .black else .white
    let result : GameResult := if winner = Color.white then .white_wins else .black_wins
    let gd := endGame g db result
    (gd.1, gd.2, some ⟨"checkmate", some winner, result, none, none⟩)
  else if E.isStalemate g.chess then
    let gd := endGame g db .draw
    (gd.1, gd.2, some ⟨"stalemate", none, .draw, none, none⟩)
  else if E.isDraw g.chess then
    let gd := endGame g db .draw
    let reason : String :=
      if E.isInsufficientMaterial g.chess then "insufficient material"
      else if E.isThreefoldRepetition g.chess then "threefold repetition"
      else "fifty-move rule"
    (gd.1, gd.2, some ⟨"draw", none, .draw, some reason, none⟩)
  else (g, db, none)

/-- The value returned by GameInstance.makeMove: either
{success:false, error} or {success:true, move, fen, pgn, gameResult,
inCheck, moveNumber}. -/
inductive MoveReply where
  | failure (error : String)
  | success (move : VerboseMove) (fen pgn : String) (gameResult : Option GameOverEvent)
      (inCheck : Bool) (moveNumber : Nat)
deriving DecidableEq, Repr

/-- GameInstance.makeMove. -/
def makeMove (E : ChessEngine Pos) (g : GameInstance Pos) (db : DB)
    (playerId fromSq toSq : String) (promotion : Option String) :
    GameInstance Pos × DB × MoveReply :=
  if ¬ isPlayerTurn E g playerId then
    (g, db, .failure "Not your turn")
  else if g.status ≠ Status.active then
    (g, db, .failure "Game is not active")
  else
    match E.moveFn g.chess ⟨fromSq, toSq, promotion⟩ with
    | .faulted => (g, db, .failure "Invalid move")
    | .illegal => (g, db, .failure "Illegal move")
    | .legal mv next =>
        let g1 := { g with chess := next, moveCount := g.moveCount + 1, drawOffer := none }
        let db1 := Db.recordMove db g1.gameId g1.moveCount playerId fromSq toSq mv.san (E.fen next)
        let db2 := Db.updateGameState db1 g1.gameId (E.fen next) (E.pgn next)
        let r := checkGameEnd E g1 db2
        (r.1, r.2.1, .success mv (E.fen r.1.chess) (E.pgn r.1.chess) r.2.2
          (E.inCheck r.1.chess) r.1.moveCount)

/-- Whether a MoveReply has the success shape. -/
def MoveReply.isSuccess : MoveReply → Bool
  | .failure _ => false
  | .success _ _ _ _ _ _ => true

/-- GameInstance.resign. -/
def resign (g : GameInstance Pos) (db : DB) (playerId : String) :
    GameInstance Pos × DB × Option GameOverEvent :=
  if g.status ≠ Status.active then (g, db, none)
  else
    match g.getPlayerColor playerId with
    | none => (g, db, none)
    | some color =>
        let result : GameResult := if color = Color.white then .black_wins else .white_wins
        let gd := endGame g db result
        (gd.1, gd.2, some ⟨"resignation", some (if color = Color.white then .black else .white),
          result, none, none⟩)

/-- GameInstance.offerDraw; the returned payload carries the offering
color. -/
def offerDraw (g : GameInstance Pos) (db : DB) (playerId : String) :
    GameInstance Pos × DB × Option (Option Color) :=
  if g.status ≠ Status.active then (g, db, none)
  else if g.drawOffer = some playerId then (g, db, none)
  else ({ g with drawOffer := some playerId }, db, some (g.getPlayerColor playerId))

/-- GameInstance.acceptDraw (note: no status guard in the source). -/
def acceptDraw (g : GameInstance Pos) (db : DB) (playerId : String) :
    GameInstance Pos × DB × Option GameOverEvent :=
  if g.drawOffer = none ∨ g.drawOffer = some playerId then (g, db, none)
  else
    let gd := endGame g db .draw
    (gd.1, gd.2, some ⟨"draw_agreed", none, .draw, none, none⟩)

/-- GameInstance.declineDraw (note: no status guard in the source). -/
def declineDraw (g : GameInstance Pos) (db : DB) (playerId : String) :
    GameInstance Pos × DB × Bool :=
  if g.drawOffer = none ∨ g.drawOffer = some playerId then (g, db, false)
  else ({ g with drawOffer := none }, db, true)

/-- The grouping step of GameInstance.getLegalMoves: add one verbose move
to the origin-to-destinations mapping (a JS object modelled as an
insertion-ordered association list). -/
def groupedAdd (grouped : List (String × List String)) (fromSq toSq : String) :
    List (String × List String) :=
  if (grouped.find? (fun e => e.1 = fromSq)).isSome then
    grouped.map (fun e => if e.1 = fromSq then (e.1, e.2 ++ [toSq]) else e)
  else grouped ++ [(fromSq, [toSq])]

/-- GameInstance.getLegalMoves: group the engine's verbose move list by
origin square. -/
def getLegalMoves (E : ChessEngine Pos) (g : GameInstance Pos) :
    List (String × List String) :=
  (E.movesVerbose g.chess).foldl (fun grouped m => groupedAdd grouped m.fromSq m.toSq) []

end GameInstance

/-- Server-side shared state: the `activeGames` Map plus the database. -/
structure ServerState (Pos : Type) where
  activeGames : List (String × GameInstance Pos)
  db : DB

namespace GameManager

variable {Pos : Type}

/-- activeGames.get. -/
def lookupGame (m : List (String × GameInstance Pos)) (gameId : String) :
    Option (GameInstance Pos) :=
  (m.find? (fun e => e.1 = gameId)).map (fun e => e.2)

/-- activeGames.set: overwrite the entry for the key, or append a new
entry. -/
def setGame (m : List (String × GameInstance Pos)) (gameId : String)
    (g : GameInstance Pos) : List (String × GameInstance Pos) :=
  if (m.find? (fun e => e.1 = gameId)).isSome then
    m.map (fun e => if e.1 = gameId then (gameId, g) else e)
  else m ++ [(gameId, g)]

/-- gameManager.createGame.  The uuids the JS draws are passed in as the
`playerId` and `gameId` parameters. -/
def createGame (E : ChessEngine Pos) (s : ServerState Pos)
    (playerId gameId playerName : String) :
    ServerState Pos × String × String × Color :=
  let db1 := Db.createPlayer s.db playerId playerName
  let db2 := Db.createGame db1 gameId playerId
  let g := GameInstance.new E gameId playerId
  ({ activeGames := setGame s.activeGames gameId g, db := db2 }, gameId, playerId, Color.white)

/-- The reply of gameManager.joinGame. -/
inductive JoinReply where
  | error (msg : String)
  | ok (gameId playerId : String) (color : Color)
deriving DecidableEq, Repr

/-- The cold-start restoration block inside gameManager.joinGame (the
`if (!game)` branch). -/
def restoreForJoin (E : ChessEngine Pos) (db : DB) (gameId : String) :
    Except String (GameInstance Pos) :=
  match Db.getGame db gameId with
  | none => .error "Game not found"
  | some dbGame =>
      if dbGame.status = Status.completed then .error "Game already completed"
      else if dbGame.status = Status.active ∧ dbGame.blackPlayerId.isSome then
        .error "Game is full"
      else
        let g := GameInstance.new E gameId dbGame.whitePlayerId
        let g := if dbGame.fen ≠ "" then { g with chess := E.ofFen dbGame.fen } else g
        .ok { g with status := dbGame.status }

/-- gameManager.joinGame.  The joiner's fresh uuid is the `newPlayerId`
parameter.  A session restored by the cold-start branch stays in the map
even when the subsequent guards reject the join (JS mutates the object
already stored in `activeGames`). -/
def joinGame (E : ChessEngine Pos) (s : ServerState Pos)
    (gameId playerName newPlayerId : String) : ServerState Pos × JoinReply :=
  let found : Except String (List (String × GameInstance Pos) × GameInstance Pos) :=
    match lookupGame s.activeGames gameId with
    | some g => .ok (s.activeGames, g)
    | none =>
        match restoreForJoin E s.db gameId with
        | .error e => .error e
        | .ok g => .ok (setGame s.activeGames gameId g, g)
  match found with
  | .error e => (s, .error e)
  | .ok (ag, g) =>
      if g.status ≠ Status.waiting then
        ({ s with activeGames := ag }, .error "Game already started or completed")
      else if g.blackPlayerId.isSome then
        ({ s with activeGames := ag }, .error "Game is full")
      else
        let db1 := Db.createPlayer s.db newPlayerId playerName
        let g1 := { g with blackPlayerId := some newPlayerId, status := Status.active }
        let db2 := Db.joinGame db1 gameId newPlayerId
        ({ activeGames := setGame ag gameId g1, db := db2 }, .ok gameId newPlayerId Color.black)

/-- The reply of gameManager.reconnectToGame. -/
inductive ReconnectReply where
  | error (msg : String)
  | terminal (gameId playerId : String) (color : Color) (result : Option GameResult)
      (fen : String)
  | ok (gameId playerId : String) (color : Color)
deriving DecidableEq, Repr

/-- gameManager.reconnectToGame.  The two occurrences of the common tail
(the color check) mirror the straight-line JS after the `if (!game)`
block. -/
def reconnectToGame (E : ChessEngine Pos) (s : ServerState Pos)
    (gameId playerId : String) : ServerState Pos × ReconnectReply :=
  match lookupGame s.activeGames gameId with
  | some g =>
      match g.getPlayerColor playerId with
      | none => (s, .error "You are not in this game")
      | some color => (s, .ok gameId playerId color)
  | none =>
      match Db.getGame s.db gameId with
      | none => (s, .error "Game not found")
      | some dbGame =>
          if dbGame.status = Status.completed then
            (s, .terminal gameId playerId
              (if playerId = dbGame.whitePlayerId then Color.white else Color.black)
              dbGame.result dbGame.fen)
          else
            let g := GameInstance.new E gameId dbGame.whitePlayerId
            let g := { g with blackPlayerId := dbGame.blackPlayerId }
            let g := if dbGame.fen ≠ "" then { g with chess := E.ofFen dbGame.fen } else g
            let g := { g with status := dbGame.status,
                              moveCount := (Db.getGameMoves s.db gameId).length }
            let s1 : ServerState Pos := { s with activeGames := setGame s.activeGames gameId g }
            match g.getPlayerColor playerId with
            | none => (s1, .error "You are not in this game")
            | some color => (s1, .ok gameId playerId color)

/-- gameManager.removeGame: activeGames.delete. -/
def removeGame (s : ServerState Pos) (gameId : String) : ServerState Pos :=
  { s with activeGames := s.activeGames.filter (fun e => e.1 ≠ gameId) }

end GameManager

/-- An outbound Socket.IO event (display-name strings looked up only for
payload decoration are omitted). -/
inductive Emit where
  | errorMsg (message : String)
  | gameState (yourColor : Color)
  | playerConnected (color : Color)
  | gameReady
  | moveMade (san fen : String) (turn : Color) (inCheck : Bool) (moveNumber : Nat)
      (legalMoves : List (String × List String))
  | moveRejected (error : String)
  | gameOver (ev : GameOverEvent)
  | playerDisconnected (color : Option Color)
  | drawOffered (offeredBy : Option Color)
  | drawDeclined
deriving DecidableEq, Repr

namespace SocketHandler

variable {Pos : Type}

/-- The socket.on('join-game') handler: validate, mark the color
connected, cancel that player's pending disconnect timer, send the state
snapshot, and broadcast game-ready the first time both colors are
connected while active. -/
def handleJoinGame (s : ServerState Pos)
    (socketId gameId playerId : String) : ServerState Pos × List Emit :=
  match GameManager.lookupGame s.activeGames gameId with
  | none => (s, [.errorMsg "Game not found"])
  | some g =>
      match g.getPlayerColor playerId with
      | none => (s, [.errorMsg "Not a player in this game"])
      | some color =>
          let g1 :=
            if color = Color.white then
              { g with whiteSocketId := some socketId, whiteConnected := true }
            else
              { g with blackSocketId := some socketId, blackConnected := true }
          let g2 := { g1 with disconnectTimers := g1.disconnectTimers.filter (fun p => p ≠ playerId) }
          let base : List Emit := [.gameState color, .playerConnected color]
          if g2.whiteConnected ∧ g2.blackConnected ∧ g2.status = Status.active ∧
              ¬ g2.gameReadySent then
            let g3 := { g2 with gameReadySent := true }
            ({ s with activeGames := GameManager.setGame s.activeGames gameId g3 },
              base ++ [.gameReady])
          else
            ({ s with activeGames := GameManager.setGame s.activeGames gameId g2 }, base)

/-- The socket.on('make-move') handler (the five-minute eviction timeout
it schedules on game end is not part of the returned value). -/
def handleMakeMove (E : ChessEngine Pos) (s : ServerState Pos)
    (gameId playerId fromSq toSq : String) (promotion : Option String) :
    ServerState Pos × List Emit :=
  match GameManager.lookupGame s.activeGames gameId with
  | none => (s, [])
  | some g =>
      match GameInstance.makeMove E g s.db playerId fromSq toSq promotion with
      | (g1, db1, .failure e) =>
          ({ activeGames := GameManager.setGame s.activeGames gameId g1, db := db1 },
            [.moveRejected e])
      | (g1, db1, .success mv fen _pgn gameResult inCheck moveNumber) =>
          let s1 : ServerState Pos :=
            { activeGames := GameManager.setGame s.activeGames gameId g1, db := db1 }
          let emits : List Emit :=
            [.moveMade mv.san fen (E.turn g1.chess) inCheck moveNumber
              (GameInstance.getLegalMoves E g1)]
          match gameResult with
          | none => (s1, emits)
          | some ev => (s1, emits ++ [.gameOver ev])

/-- The socket.on('disconnect') handler: mark the color disconnected
(a null color falls into the black branch, as in the JS else), notify the
room, and if still active schedule a disconnect timer keyed by the player
id. -/
def handleDisconnect (s : ServerState Pos) (gameId playerId : String) :
    ServerState Pos × List Emit :=
  match GameManager.lookupGame s.activeGames gameId with
  | none => (s, [])
  | some g =>
      let color := g.getPlayerColor playerId
      let g1 :=
        if color = some Color.white then
          { g with whiteConnected := false, whiteSocketId := none }
        else
          { g with blackConnected := false, blackSocketId := none }
      let g2 :=
        if g1.status = Status.active then
          { g1 with disconnectTimers :=
              if playerId ∈ g1.disconnectTimers then g1.disconnectTimers
              else playerId :: g1.disconnectTimers }
        else g1
      ({ s with activeGames := GameManager.setGame s.activeGames gameId g2 },
        [.playerDisconnected color])

/-- Render an Option Color the way JS string interpolation renders the
nullable color in the abandonment message. -/
def colorText : Option Color → String
  | some .white => "white"
  | some .black => "black"
  | none => "null"

/-- The body of the disconnect-timer callback (it closes over the game
object and the player id; the stale timer key is not deleted on fire,
matching the source). -/
def timerFire (g : GameInstance Pos) (db : DB) (playerId : String) :
    GameInstance Pos × DB × List Emit :=
  if g.status = Status.active then
    let abandonColor := g.getPlayerColor playerId
    let winner : Color := if abandonColor = some Color.white then .black else .white
    let result : GameResult := if abandonColor = some Color.white then .black_wins else .white_wins
    let gd := GameInstance.endGame g db result
    (gd.1, gd.2, [.gameOver ⟨"abandonment", some winner, result, none,
      some (colorText abandonColor ++ " player disconnected")⟩])
  else (g, db, [])

end SocketHandler

/-!
Concrete fixtures: a trivial stand-in rules engine over `Nat` positions
(the spec treats the engine as an external capability, so the theorems are
stated for an arbitrary engine and evaluated on this one), plus small
server states used to evaluate the theorems on concrete inputs.
-/

/-- A toy rules engine: the position is the number of half-moves played,
the side to move alternates, and every candidate move is legal. -/
def toyEngine : ChessEngine Nat where
  init := 0
  ofFen := fun _ => 0
  turn := fun n => if n % 2 = 0 then .white else .black
  moveFn := fun n m => .legal ⟨m.fromSq, m.toSq, m.toSq, none, "p"⟩ (n + 1)
  fen := fun n => "fen-" ++ toString n
  pgn := fun n => "pgn-" ++ toString n
  inCheck := fun _ => false
  isCheckmate := fun _ => false
  isStalemate := fun _ => false
  isDraw := fun _ => false
  isThreefoldRepetition := fun _ => false
  isInsufficientMaterial := fun _ => false
  isGameOver := fun _ => false
  movesVerbose := fun _ => [⟨"e2", "e4", "e4", none, "p"⟩, ⟨"e2", "e3", "e3", none, "p"⟩]

/-- An active two-player session fixture. -/
def toyActiveGame : GameInstance Nat where
  gameId := "g1"
  chess := 0
  whitePlayerId := "w1"
  blackPlayerId := some "b1"
  whiteSocketId := some "sw"
  blackSocketId := some "sb"
  whiteConnected := true
  blackConnected := true
  moveCount := 0
  status := .active
  drawOffer := none
  disconnectTimers := []
  gameReadySent := true

/-- A database fixture matching `toyActiveGame`. -/
def toyDb : DB where
  players := [⟨"w1", "Alice", 0, 0, 0, 0⟩, ⟨"b1", "Bob", 0, 0, 0, 0⟩]
  games := [⟨"g1", "w1", some "b1", .active, none, initialFen, none⟩]
  moves := []

/-- A server-state fixture holding the active session. -/
def toyState : ServerState Nat where
  activeGames := [("g1", toyActiveGame)]
  db := toyDb

/-- The active session with a pending draw offer from white. -/
def toyOfferGame : GameInstance Nat :=
  { toyActiveGame with drawOffer := some "w1" }

/-- A completed session on which white's draw offer is still pending
(reachable: white offers a draw, then black resigns). -/
def toyCompletedOfferGame : GameInstance Nat :=
  { toyActiveGame with status := .completed, drawOffer := some "w1" }

/-- A database fixture for the completed game: result white_wins, stats
already applied once. -/
def toyCompletedDb : DB where
  players := [⟨"w1", "Alice", 1, 0, 0, 3⟩, ⟨"b1", "Bob", 0, 1, 0, 0⟩]
  games := [⟨"g1", "w1", some "b1", .completed, some .white_wins, "fen-9", none⟩]
  moves := []

/-- A waiting one-player session fixture (creator only). -/
def toyWaitingGame : GameInstance Nat :=
  { toyActiveGame with
      blackPlayerId := none, blackSocketId := none, blackConnected := false,
      status := .waiting, gameReadySent := false }

/-- A database fixture matching `toyWaitingGame`. -/
def toyWaitingDb : DB where
  players := [⟨"w1", "Alice", 0, 0, 0, 0⟩]
  games := [⟨"g1", "w1", none, .waiting, none, initialFen, none⟩]
  moves := []

/-- A server-state fixture holding the waiting session. -/
def toyWaitingState : ServerState Nat where
  activeGames := [("g1", toyWaitingGame)]
  db := toyWaitingDb

/-- A server state with no live session whose durable record is
completed. -/
def toyTerminalState : ServerState Nat where
  activeGames := []
  db := toyCompletedDb

/-- An active session with pending disconnect timers for both players
(white currently disconnected). -/
def toyTimerGame : GameInstance Nat :=
  { toyActiveGame with disconnectTimers := ["w1", "b1"], whiteConnected := false }

/-- A server-state fixture holding the session with pending timers. -/
def toyTimerState : ServerState Nat where
  activeGames := [("g1", toyTimerGame)]
  db := toyDb

/-- One inbound make-move request (the uuid and squares of the socket
payload). -/
structure MoveAttempt where
  playerId : String
  fromSq : String
  toSq : String
  promotion : Option String

/-- Trace driver for the move-log invariant: feed a list of move attempts
through makeMove, returning the final session, the final database, and
the number of accepted moves. -/
def runMoves {Pos : Type} (E : ChessEngine Pos) :
    GameInstance Pos → DB → List MoveAttempt → GameInstance Pos × DB × Nat
  | g, db, [] => (g, db, 0)
  | g, db, a :: rest =>
      let r := GameInstance.makeMove E g db a.playerId a.fromSq a.toSq a.promotion
      match r.2.2 with
      | .failure _ => runMoves E r.1 r.2.1 rest
      | .success _ _ _ _ _ _ =>
          let t := runMoves E r.1 r.2.1 rest
          (t.1, t.2.1, t.2.2 + 1)

/-- Count the game-ready broadcasts in an emission trace. -/
def countGameReady (l : List Emit) : Nat :=
  (l.filter (fun e => match e with | .gameReady => true | _ => false)).length

/-- Lifecycle trace for the game-ready broadcast, step 0: empty server. -/
def c9s0 : ServerState Nat where
  activeGames := []
  db := ⟨[], [], []⟩

/-- Step 1: Alice creates the game. -/
def c9s1 : ServerState Nat := (GameManager.createGame toyEngine c9s0 "w1" "g1" "Alice").1

/-- Step 2: Bob joins. -/
def c9s2 : ServerState Nat := (GameManager.joinGame toyEngine c9s1 "g1" "Bob" "b1").1

/-- Step 3: white's socket joins the room. -/
def c9j1 : ServerState Nat × List Emit := SocketHandler.handleJoinGame c9s2 "sockW" "g1" "w1"

/-- Step 4: black's socket joins the room (both connected). -/
def c9j2 : ServerState Nat × List Emit := SocketHandler.handleJoinGame c9j1.1 "sockB" "g1" "b1"

/-- Step 5: the live session is evicted from the registry. -/
def c9s5 : ServerState Nat := GameManager.removeGame c9j2.1 "g1"

/-- Step 6: cold-start restoration of the session from the durable
record. -/
def c9s6 : ServerState Nat := (GameManager.reconnectToGame toyEngine c9s5 "g1" "w1").1

/-- Step 7: white's socket rejoins the restored session. -/
def c9j3 : ServerState Nat × List Emit := SocketHandler.handleJoinGame c9s6 "sockW2" "g1" "w1"

/-- Step 8: black's socket rejoins the restored session. -/
def c9j4 : ServerState Nat × List Emit := SocketHandler.handleJoinGame c9j3.1 "sockB2" "g1" "b1"

/-- The session mutation performed by the join-game handler before the
game-ready check: record the socket for the joining color and cancel that
player's pending disconnect timer. -/
def joinStep {Pos : Type} (g : GameInstance Pos) (sock pid : String) (c : Color) :
    GameInstance Pos :=
  let g1 :=
    if c = Color.white then { g with whiteSocketId := some sock, whiteConnected := true }
    else { g with blackSocketId := some sock, blackConnected := true }
  { g1 with disconnectTimers := g1.disconnectTimers.filter (fun q => q ≠ pid) }

/-!
Generic list lemmas shared by the database and registry proofs.
-/

/-- find? commutes with mapping a function that does not change the
predicate's verdict. -/
theorem find?_map_congr {α : Type} (p : α → Bool) (f : α → α)
    (h : ∀ a, p (f a) = p a) :
    ∀ l : List α, (l.map f).find? p = (l.find? p).map f := by
  intro l
  induction l with
  | nil => rfl
  | cons a tl ih =>
      cases hpa : p a with
      | true =>
          rw [List.map_cons, List.find?_cons_of_pos _ (by rw [h]; exact hpa),
            List.find?_cons_of_pos _ hpa, Option.map_some']
      | false =>
          rw [List.map_cons, List.find?_cons_of_neg _ (by simp [h, hpa]),
            List.find?_cons_of_neg _ (by simp [hpa]), ih]

/-- bumpStats never changes the player id. -/
theorem bumpStats_id (p : PlayerRow) (o : Outcome) : (Db.bumpStats p o).id = p.id := by
  cases o <;> rfl

/-- Reading a player after a stats update: the player's own row is bumped
when targeted, untouched otherwise. -/
theorem getPlayer_updatePlayerStats (db : DB) (pid : Option String) (o : Outcome)
    (x : String) :
    Db.getPlayer (Db.updatePlayerStats db pid o) x =
      (Db.getPlayer db x).map (fun p => if some p.id = pid then Db.bumpStats p o else p) := by
  unfold Db.getPlayer Db.updatePlayerStats
  exact find?_map_congr _ _
    (fun a => by by_cases hx : some a.id = pid <;> simp [hx, bumpStats_id]) db.players

/-- Reading a player row is unaffected by completeGame (it writes only
the games table). -/
theorem getPlayer_completeGame (db : DB) (gid : String) (r : GameResult) (x : String) :
    Db.getPlayer (Db.completeGame db gid r) x = Db.getPlayer db x := rfl

/-- A found player row carries the looked-up id. -/
theorem getPlayer_id {db : DB} {x : String} {p : PlayerRow}
    (h : Db.getPlayer db x = some p) : p.id = x := by
  have := List.find?_some h
  exact of_decide_eq_true this

/-- Reading a game row after completeGame. -/
theorem getGame_completeGame (db : DB) (gid : String) (r : GameResult) (x : String) :
    Db.getGame (Db.completeGame db gid r) x =
      (Db.getGame db x).map (fun g =>
        if g.id = gid then { g with status := Status.completed, result := some r } else g) := by
  unfold Db.getGame Db.completeGame
  exact find?_map_congr _ _
    (fun a => by by_cases hx : a.id = gid <;> simp [hx]) db.games

/-- Reading a game row after updateGameState. -/
theorem getGame_updateGameState (db : DB) (gid fen pgn : String) (x : String) :
    Db.getGame (Db.updateGameState db gid fen pgn) x =
      (Db.getGame db x).map (fun g =>
        if g.id = gid then { g with fen := fen, pgn := some pgn } else g) := by
  unfold Db.getGame Db.updateGameState
  exact find?_map_congr _ _
    (fun a => by by_cases hx : a.id = gid <;> simp [hx]) db.games

/-- Reading a game row is unaffected by updatePlayerStats. -/
theorem getGame_updatePlayerStats (db : DB) (pid : Option String) (o : Outcome)
    (x : String) :
    Db.getGame (Db.updatePlayerStats db pid o) x = Db.getGame db x := rfl

/-- Looking up the key just written into the activeGames map returns the
written session. -/
theorem lookup_setGame_self {Pos : Type} (m : List (String × GameInstance Pos))
    (k : String) (g : GameInstance Pos) :
    GameManager.lookupGame (GameManager.setGame m k g) k = some g := by
  unfold GameManager.lookupGame GameManager.setGame
  cases hf : (m.find? (fun e => e.1 = k)) with
  | none =>
      rw [if_neg (by simp [hf])]
      rw [List.find?_append, hf, Option.none_or,
        List.find?_cons_of_pos _ (by simp)]
      rfl
  | some e0 =>
      rw [if_pos (by simp [hf])]
      rw [find?_map_congr _ _ (fun a => by by_cases hx : a.1 = k <;> simp [hx]) m, hf]
      have he0 : e0.1 = k := by have h2 := List.find?_some hf; simpa using h2
      simp [he0]

/-!
Claim theorems.
-/

/-- C3: for every Session and every move attempt by a player whose color
does not match the rules engine's current side-to-move, makeMove fails
with the NotYourTurn error and leaves the session (position, move
counter) and the database unchanged. -/
theorem makeMove_wrong_turn_rejected {Pos : Type} (E : ChessEngine Pos)
    (g : GameInstance Pos) (db : DB) (playerId fromSq toSq : String)
    (promotion : Option String)
    (hdistinct : g.blackPlayerId ≠ some g.whitePlayerId)
    (hturn : g.getPlayerColor playerId ≠ some (E.turn g.chess)) :
    GameInstance.makeMove E g db playerId fromSq toSq promotion =
      (g, db, .failure "Not your turn") := by
  have hpt : GameInstance.isPlayerTurn E g playerId = false := by
    unfold GameInstance.isPlayerTurn
    cases ht : E.turn g.chess with
    | white =>
        by_cases hw : playerId = g.whitePlayerId
        · have hcol : g.getPlayerColor playerId = some Color.white := by
            simp [GameInstance.getPlayerColor, hw]
          rw [ht] at hturn
          exact absurd hcol hturn
        · simp [hw]
    | black =>
        by_cases hb : some playerId = g.blackPlayerId
        · by_cases hw : playerId = g.whitePlayerId
          · exact absurd (by rw [← hb, hw]) hdistinct
          · have hcol : g.getPlayerColor playerId = some Color.black := by
              simp [GameInstance.getPlayerColor, hw, hb]
            rw [ht] at hturn
            exact absurd hcol hturn
        · simp [hb]
  unfold GameInstance.makeMove
  simp [hpt]

/-- Witness for C3: in the fixture it is white's turn, so black's attempt
is rejected without mutation. -/
theorem makeMove_wrong_turn_rejected_witness :
    GameInstance.makeMove toyEngine toyActiveGame toyDb "b1" "e7" "e5" none =
      (toyActiveGame, toyDb, .failure "Not your turn") :=
  makeMove_wrong_turn_rejected toyEngine toyActiveGame toyDb "b1" "e7" "e5" none
    (by decide) (by decide)

/-- C5: acceptDraw is a no-op (session, database and reply all unchanged,
so in particular the game never ends) whenever no draw offer is pending or
the pending offer was made by the accepting player. -/
theorem acceptDraw_self_or_absent_noop {Pos : Type} (g : GameInstance Pos)
    (db : DB) (playerId : String)
    (h : g.drawOffer = none ∨ g.drawOffer = some playerId) :
    GameInstance.acceptDraw g db playerId = (g, db, none) := by
  unfold GameInstance.acceptDraw
  rw [if_pos h]

/-- Witness for C5: the offering player cannot accept their own offer. -/
theorem acceptDraw_self_or_absent_noop_witness :
    GameInstance.acceptDraw toyOfferGame toyDb "w1" = (toyOfferGame, toyDb, none) :=
  acceptDraw_self_or_absent_noop toyOfferGame toyDb "w1" (Or.inr rfl)

/-- Counterexample to C1: on a completed session whose pending draw offer
was made by white, black's acceptDraw still runs endGame and overwrites
the recorded result (white_wins becomes draw), so a completed status does
not prevent further mutation. -/
theorem completed_session_acceptDraw_mutates :
    toyCompletedOfferGame.status = Status.completed ∧
    (Db.getGame toyCompletedDb "g1").map (fun r => r.result) =
      some (some GameResult.white_wins) ∧
    (Db.getGame (GameInstance.acceptDraw toyCompletedOfferGame toyCompletedDb "b1").2.1
      "g1").map (fun r => r.result) = some (some GameResult.draw) := by
  refine ⟨rfl, rfl, ?_⟩
  decide

/-- C1 amended: on a completed session, makeMove, resign, offerDraw and a
disconnect-timer fire leave the session and the database unchanged; the
draw actions are not status-guarded, yet each still leaves the position
and the move counter unchanged, and each is a full no-op when no offer is
pending or the pending offer is the caller's own — only acceptDraw /
declineDraw acting on another player's still-pending offer mutate state
(declineDraw clears the offer; acceptDraw re-runs game end, overwriting
the recorded result and re-applying stat updates). -/
theorem completed_session_frame {Pos : Type} (E : ChessEngine Pos)
    (g : GameInstance Pos) (db : DB) (playerId fromSq toSq : String)
    (promotion : Option String) (hc : g.status = Status.completed) :
    ((GameInstance.makeMove E g db playerId fromSq toSq promotion).1 = g ∧
      (GameInstance.makeMove E g db playerId fromSq toSq promotion).2.1 = db) ∧
    GameInstance.resign g db playerId = (g, db, none) ∧
    GameInstance.offerDraw g db playerId = (g, db, none) ∧
    SocketHandler.timerFire g db playerId = (g, db, []) ∧
    ((GameInstance.acceptDraw g db playerId).1.chess = g.chess ∧
      (GameInstance.acceptDraw g db playerId).1.moveCount = g.moveCount) ∧
    ((GameInstance.declineDraw g db playerId).1.chess = g.chess ∧
      (GameInstance.declineDraw g db playerId).1.moveCount = g.moveCount ∧
      (GameInstance.declineDraw g db playerId).2.1 = db) ∧
    (g.drawOffer = none ∨ g.drawOffer = some playerId →
      GameInstance.acceptDraw g db playerId = (g, db, none) ∧
      GameInstance.declineDraw g db playerId = (g, db, false)) := by
  refine ⟨?_, ?_, ?_, ?_, ?_, ?_, ?_⟩
  · by_cases hpt : GameInstance.isPlayerTurn E g playerId <;>
      simp [GameInstance.makeMove, hpt, hc]
  · simp [GameInstance.resign, hc]
  · simp [GameInstance.offerDraw, hc]
  · simp [SocketHandler.timerFire, hc]
  · by_cases hg : (g.drawOffer = none ∨ g.drawOffer = some playerId) <;>
      simp [GameInstance.acceptDraw, GameInstance.endGame, hg]
  · by_cases hg : (g.drawOffer = none ∨ g.drawOffer = some playerId) <;>
      simp [GameInstance.declineDraw, hg]
  · intro hg
    exact ⟨by simp [GameInstance.acceptDraw, hg], by simp [GameInstance.declineDraw, hg]⟩

/-- Witness for the amended C1 on the completed fixture: resign and the
disconnect timer are no-ops, and acceptDraw leaves position and move
counter unchanged. -/
theorem completed_session_frame_witness :
    GameInstance.resign toyCompletedOfferGame toyCompletedDb "b1" =
      (toyCompletedOfferGame, toyCompletedDb, none) ∧
    SocketHandler.timerFire toyCompletedOfferGame toyCompletedDb "b1" =
      (toyCompletedOfferGame, toyCompletedDb, []) ∧
    (GameInstance.acceptDraw toyCompletedOfferGame toyCompletedDb "b1").1.moveCount =
      toyCompletedOfferGame.moveCount :=
  ⟨(completed_session_frame toyEngine toyCompletedOfferGame toyCompletedDb "b1" "e2" "e4"
      none rfl).2.1,
   (completed_session_frame toyEngine toyCompletedOfferGame toyCompletedDb "b1" "e2" "e4"
      none rfl).2.2.2.1,
   (completed_session_frame toyEngine toyCompletedOfferGame toyCompletedDb "b1" "e2" "e4"
      none rfl).2.2.2.2.1.2⟩

/-- C2: whenever endGame records a result for a session with both players
assigned and distinct, both players' aggregate rows are updated in the
same call: the winner gains 3 score and one win, the loser gains 0 score
and one loss, and on a draw each side gains 1 score and one draw. -/
theorem endGame_updates_both_stats {Pos : Type} (g : GameInstance Pos) (db : DB)
    (b : String) (pw pb : PlayerRow)
    (hb : g.blackPlayerId = some b)
    (hwb : g.whitePlayerId ≠ b)
    (hpw : Db.getPlayer db g.whitePlayerId = some pw)
    (hpb : Db.getPlayer db b = some pb) :
    (Db.getPlayer (GameInstance.endGame g db .white_wins).2 g.whitePlayerId =
        some { pw with wins := pw.wins + 1, score := pw.score + 3 } ∧
      Db.getPlayer (GameInstance.endGame g db .white_wins).2 b =
        some { pb with losses := pb.losses + 1, score := pb.score + 0 }) ∧
    (Db.getPlayer (GameInstance.endGame g db .black_wins).2 b =
        some { pb with wins := pb.wins + 1, score := pb.score + 3 } ∧
      Db.getPlayer (GameInstance.endGame g db .black_wins).2 g.whitePlayerId =
        some { pw with losses := pw.losses + 1, score := pw.score + 0 }) ∧
    (Db.getPlayer (GameInstance.endGame g db .draw).2 g.whitePlayerId =
        some { pw with draws := pw.draws + 1, score := pw.score + 1 } ∧
      Db.getPlayer (GameInstance.endGame g db .draw).2 b =
        some { pb with draws := pb.draws + 1, score := pb.score + 1 }) := by
  have hpwid : pw.id = g.whitePlayerId := getPlayer_id hpw
  have hpbid : pb.id = b := getPlayer_id hpb
  have hbw : b ≠ g.whitePlayerId := fun h => hwb h.symm
  refine ⟨⟨?_, ?_⟩, ⟨?_, ?_⟩, ⟨?_, ?_⟩⟩ <;>
    simp only [GameInstance.endGame, hb, getPlayer_updatePlayerStats,
      getPlayer_completeGame, hpw, hpb, Option.map_some'] <;>
    simp [Db.bumpStats, hpwid, hpbid, hwb, hbw]

/-- endGame only flips the session status to completed. -/
theorem endGame_fst {Pos : Type} (g : GameInstance Pos) (db : DB) (r : GameResult) :
    (GameInstance.endGame g db r).1 = { g with status := Status.completed } := by
  cases r <;> rfl

/-- endGame never touches the moves table. -/
theorem endGame_moves {Pos : Type} (g : GameInstance Pos) (db : DB) (r : GameResult) :
    (GameInstance.endGame g db r).2.moves = db.moves := by
  cases r <;> rfl

/-- completeGame preserves every game row's fen. -/
theorem map_fen_getGame_completeGame (db : DB) (gid : String) (r : GameResult)
    (x : String) :
    (Db.getGame (Db.completeGame db gid r) x).map (fun q => q.fen) =
      (Db.getGame db x).map (fun q => q.fen) := by
  rw [getGame_completeGame]
  cases Db.getGame db x with
  | none => rfl
  | some q => by_cases hq : q.id = gid <;> simp [hq]

/-- endGame preserves every game row's fen. -/
theorem endGame_getGame_fen {Pos : Type} (g : GameInstance Pos) (db : DB)
    (r : GameResult) (x : String) :
    (Db.getGame (GameInstance.endGame g db r).2 x).map (fun q => q.fen) =
      (Db.getGame db x).map (fun q => q.fen) := by
  cases r <;>
    simp only [GameInstance.endGame, getGame_updatePlayerStats,
      map_fen_getGame_completeGame]

/-- checkGameEnd never changes the position object. -/
theorem checkGameEnd_chess {Pos : Type} (E : ChessEngine Pos) (g : GameInstance Pos)
    (db : DB) : (GameInstance.checkGameEnd E g db).1.chess = g.chess := by
  unfold GameInstance.checkGameEnd
  split_ifs <;> simp [endGame_fst]

/-- checkGameEnd never changes the move counter. -/
theorem checkGameEnd_moveCount {Pos : Type} (E : ChessEngine Pos)
    (g : GameInstance Pos) (db : DB) :
    (GameInstance.checkGameEnd E g db).1.moveCount = g.moveCount := by
  unfold GameInstance.checkGameEnd
  split_ifs <;> simp [endGame_fst]

/-- checkGameEnd never changes the pending draw offer. -/
theorem checkGameEnd_drawOffer {Pos : Type} (E : ChessEngine Pos)
    (g : GameInstance Pos) (db : DB) :
    (GameInstance.checkGameEnd E g db).1.drawOffer = g.drawOffer := by
  unfold GameInstance.checkGameEnd
  split_ifs <;> simp [endGame_fst]

/-- checkGameEnd never changes the session identifier. -/
theorem checkGameEnd_gameId {Pos : Type} (E : ChessEngine Pos) (g : GameInstance Pos)
    (db : DB) : (GameInstance.checkGameEnd E g db).1.gameId = g.gameId := by
  unfold GameInstance.checkGameEnd
  split_ifs <;> simp [endGame_fst]

/-- checkGameEnd never touches the moves table. -/
theorem checkGameEnd_moves {Pos : Type} (E : ChessEngine Pos) (g : GameInstance Pos)
    (db : DB) : (GameInstance.checkGameEnd E g db).2.1.moves = db.moves := by
  unfold GameInstance.checkGameEnd
  split_ifs <;> simp [endGame_moves]

/-- checkGameEnd preserves every game row's fen. -/
theorem checkGameEnd_getGame_fen {Pos : Type} (E : ChessEngine Pos)
    (g : GameInstance Pos) (db : DB) (x : String) :
    (Db.getGame (GameInstance.checkGameEnd E g db).2.1 x).map (fun q => q.fen) =
      (Db.getGame db x).map (fun q => q.fen) := by
  unfold GameInstance.checkGameEnd
  split_ifs <;> simp [endGame_getGame_fen]

/-- checkGameEnd reports a terminal event exactly when the engine
classifies the position as checkmate, stalemate or drawn. -/
theorem checkGameEnd_isSome {Pos : Type} (E : ChessEngine Pos) (g : GameInstance Pos)
    (db : DB) :
    (GameInstance.checkGameEnd E g db).2.2.isSome =
      (E.isCheckmate g.chess || E.isStalemate g.chess || E.isDraw g.chess) := by
  unfold GameInstance.checkGameEnd
  split_ifs <;> simp_all

/-- recordMove never touches the games table. -/
theorem getGame_recordMove (db : DB) (gid : String) (n : Nat)
    (pid f t san fen : String) (x : String) :
    Db.getGame (Db.recordMove db gid n pid f t san fen) x = Db.getGame db x := rfl

/-- A found game row carries the looked-up id. -/
theorem getGame_id {db : DB} {x : String} {q : GameRow}
    (h : Db.getGame db x = some q) : q.id = x := by
  have h2 := List.find?_some h
  simpa using h2

/-- C4: when makeMove accepts a move on an active session, it increments
the move counter by one, clears any pending draw offer, persists the move
row and the updated position, asks the rules engine for terminal-state
classification, and the make-move handler broadcasts the accepted move
with the resulting position, check flag and updated legal-move map. -/
theorem makeMove_success_effects {Pos : Type} (E : ChessEngine Pos)
    (s : ServerState Pos) (g : GameInstance Pos) (row : GameRow)
    (gameId playerId fromSq toSq : String) (promotion : Option String)
    (mv : VerboseMove) (next : Pos)
    (hlook : GameManager.lookupGame s.activeGames gameId = some g)
    (hpt : GameInstance.isPlayerTurn E g playerId = true)
    (hact : g.status = Status.active)
    (hmv : E.moveFn g.chess ⟨fromSq, toSq, promotion⟩ = .legal mv next)
    (hrow : Db.getGame s.db g.gameId = some row) :
    (GameInstance.makeMove E g s.db playerId fromSq toSq promotion).1.moveCount =
      g.moveCount + 1 ∧
    (GameInstance.makeMove E g s.db playerId fromSq toSq promotion).1.drawOffer = none ∧
    (GameInstance.makeMove E g s.db playerId fromSq toSq promotion).1.chess = next ∧
    (GameInstance.makeMove E g s.db playerId fromSq toSq promotion).2.1.moves =
      s.db.moves ++
        [⟨g.gameId, g.moveCount + 1, playerId, fromSq, toSq, mv.san, E.fen next⟩] ∧
    (Db.getGame (GameInstance.makeMove E g s.db playerId fromSq toSq promotion).2.1
        g.gameId).map (fun q => q.fen) = some (E.fen next) ∧
    (∃ gr, (GameInstance.makeMove E g s.db playerId fromSq toSq promotion).2.2 =
        .success mv (E.fen next) (E.pgn next) gr (E.inCheck next) (g.moveCount + 1) ∧
      gr.isSome = (E.isCheckmate next || E.isStalemate next || E.isDraw next)) ∧
    (SocketHandler.handleMakeMove E s gameId playerId fromSq toSq promotion).2.head? =
      some (.moveMade mv.san (E.fen next) (E.turn next) (E.inCheck next) (g.moveCount + 1)
        (GameInstance.getLegalMoves E
          (GameInstance.makeMove E g s.db playerId fromSq toSq promotion).1)) := by
  set g1 : GameInstance Pos :=
    { g with chess := next, moveCount := g.moveCount + 1, drawOffer := none } with hg1
  set db2 : DB :=
    Db.updateGameState
      (Db.recordMove s.db g.gameId (g.moveCount + 1) playerId fromSq toSq mv.san (E.fen next))
      g.gameId (E.fen next) (E.pgn next) with hdb2
  have hstep : GameInstance.makeMove E g s.db playerId fromSq toSq promotion =
      ((GameInstance.checkGameEnd E g1 db2).1, (GameInstance.checkGameEnd E g1 db2).2.1,
        .success mv (E.fen (GameInstance.checkGameEnd E g1 db2).1.chess)
          (E.pgn (GameInstance.checkGameEnd E g1 db2).1.chess)
          (GameInstance.checkGameEnd E g1 db2).2.2
          (E.inCheck (GameInstance.checkGameEnd E g1 db2).1.chess)
          (GameInstance.checkGameEnd E g1 db2).1.moveCount) := by
    unfold GameInstance.makeMove
    rw [if_neg (by simp [hpt]), if_neg (by simp [hact]), hmv]
  refine ⟨?_, ?_, ?_, ?_, ?_, ?_, ?_⟩
  · rw [hstep, checkGameEnd_moveCount]
  · rw [hstep, checkGameEnd_drawOffer]
  · rw [hstep, checkGameEnd_chess]
  · rw [hstep, checkGameEnd_moves]
    rfl
  · rw [hstep, checkGameEnd_getGame_fen, hdb2, getGame_updateGameState,
      getGame_recordMove, hrow]
    simp [getGame_id hrow]
  · exact ⟨(GameInstance.checkGameEnd E g1 db2).2.2,
      by rw [hstep, checkGameEnd_chess, checkGameEnd_moveCount],
      by rw [checkGameEnd_isSome]⟩
  · unfold SocketHandler.handleMakeMove
    simp only [hlook]
    rw [hstep]
    cases hgr : (GameInstance.checkGameEnd E g1 db2).2.2 <;>
      simp [hgr, checkGameEnd_chess, checkGameEnd_moveCount, hg1]

/-- Witness for C4 on the fixture: white's opening move bumps the counter
and persists the new position. -/
theorem makeMove_success_effects_witness :
    (GameInstance.makeMove toyEngine toyActiveGame toyDb "w1" "e2" "e4" none).1.moveCount =
      toyActiveGame.moveCount + 1 ∧
    (Db.getGame (GameInstance.makeMove toyEngine toyActiveGame toyDb "w1" "e2" "e4"
        none).2.1 toyActiveGame.gameId).map (fun q => q.fen) = some (toyEngine.fen 1) :=
  ⟨(makeMove_success_effects toyEngine toyState toyActiveGame
      ⟨"g1", "w1", some "b1", .active, none, initialFen, none⟩ "g1" "w1" "e2" "e4" none
      ⟨"e2", "e4", "e4", none, "p"⟩ 1 rfl (by decide) rfl rfl rfl).1,
   (makeMove_success_effects toyEngine toyState toyActiveGame
      ⟨"g1", "w1", some "b1", .active, none, initialFen, none⟩ "g1" "w1" "e2" "e4" none
      ⟨"e2", "e4", "e4", none, "p"⟩ 1 rfl (by decide) rfl rfl rfl).2.2.2.2.1⟩

/-- C6: join on a live waiting session with no black player succeeds
exactly once — it assigns the joiner as black and activates the session —
after which every further join attempt fails with the
already-started/completed error; join on a session with no live instance
and no durable record fails with the not-found error. -/
theorem join_waiting_succeeds_once {Pos : Type} (E : ChessEngine Pos)
    (s : ServerState Pos) (gameId playerName newPlayerId : String)
    (g : GameInstance Pos)
    (hlook : GameManager.lookupGame s.activeGames gameId = some g)
    (hw : g.status = Status.waiting) (hbnone : g.blackPlayerId = none) :
    (GameManager.joinGame E s gameId playerName newPlayerId).2 =
      .ok gameId newPlayerId Color.black ∧
    (∃ g1, GameManager.lookupGame
        (GameManager.joinGame E s gameId playerName newPlayerId).1.activeGames gameId =
          some g1 ∧
      g1.status = Status.active ∧ g1.blackPlayerId = some newPlayerId) ∧
    (∀ name2 pid2 : String,
      (GameManager.joinGame E (GameManager.joinGame E s gameId playerName newPlayerId).1
        gameId name2 pid2).2 = .error "Game already started or completed") ∧
    (∀ (s0 : ServerState Pos) (gid name pid : String),
      GameManager.lookupGame s0.activeGames gid = none →
      Db.getGame s0.db gid = none →
      (GameManager.joinGame E s0 gid name pid).2 = .error "Game not found") := by
  have hjoin : GameManager.joinGame E s gameId playerName newPlayerId =
      ({ activeGames := GameManager.setGame s.activeGames gameId
            { g with blackPlayerId := some newPlayerId, status := Status.active },
          db := Db.joinGame (Db.createPlayer s.db newPlayerId playerName) gameId newPlayerId },
        .ok gameId newPlayerId Color.black) := by
    unfold GameManager.joinGame
    simp only [hlook]
    rw [if_neg (by simp [hw]), if_neg (by simp [hbnone])]
  refine ⟨by rw [hjoin], ?_, ?_, ?_⟩
  · rw [hjoin]
    exact ⟨_, lookup_setGame_self _ _ _, rfl, rfl⟩
  · intro name2 pid2
    rw [hjoin]
    unfold GameManager.joinGame
    simp only [lookup_setGame_self]
    rw [if_pos (by simp)]
  · intro s0 gid name pid h1 h2
    unfold GameManager.joinGame GameManager.restoreForJoin
    simp [h1, h2]

/-- Witness for C6: Bob's join succeeds and Carol's subsequent join is
rejected. -/
theorem join_waiting_succeeds_once_witness :
    (GameManager.joinGame toyEngine toyWaitingState "g1" "Bob" "b1").2 =
      .ok "g1" "b1" Color.black ∧
    (GameManager.joinGame toyEngine
        (GameManager.joinGame toyEngine toyWaitingState "g1" "Bob" "b1").1
        "g1" "Carol" "c1").2 = .error "Game already started or completed" :=
  ⟨(join_waiting_succeeds_once toyEngine toyWaitingState "g1" "Bob" "b1" toyWaitingGame
      rfl rfl rfl).1,
   (join_waiting_succeeds_once toyEngine toyWaitingState "g1" "Bob" "b1" toyWaitingGame
      rfl rfl rfl).2.2.1 "Carol" "c1"⟩

/-- makeMove either fails leaving the session and the database untouched,
or succeeds preserving the session id, incrementing the counter, and
appending exactly one move row numbered moveCount+1 for this game. -/
theorem makeMove_step_cases {Pos : Type} (E : ChessEngine Pos) (g : GameInstance Pos)
    (db : DB) (pid f t : String) (pr : Option String) :
    ((GameInstance.makeMove E g db pid f t pr).1 = g ∧
      (GameInstance.makeMove E g db pid f t pr).2.1 = db ∧
      ∃ e, (GameInstance.makeMove E g db pid f t pr).2.2 = .failure e) ∨
    ((GameInstance.makeMove E g db pid f t pr).1.gameId = g.gameId ∧
      (GameInstance.makeMove E g db pid f t pr).1.moveCount = g.moveCount + 1 ∧
      (∃ san fen, (GameInstance.makeMove E g db pid f t pr).2.1.moves =
        db.moves ++ [⟨g.gameId, g.moveCount + 1, pid, f, t, san, fen⟩]) ∧
      ∃ mv fe pg gr ic n,
        (GameInstance.makeMove E g db pid f t pr).2.2 = .success mv fe pg gr ic n) := by
  by_cases hpt : GameInstance.isPlayerTurn E g pid = true
  · by_cases hact : g.status = Status.active
    · cases hmv : E.moveFn g.chess ⟨f, t, pr⟩ with
      | faulted =>
          left
          have hstep : GameInstance.makeMove E g db pid f t pr =
              (g, db, .failure "Invalid move") := by
            unfold GameInstance.makeMove
            rw [if_neg (by simp [hpt]), if_neg (by simp [hact]), hmv]
          rw [hstep]
          exact ⟨rfl, rfl, _, rfl⟩
      | illegal =>
          left
          have hstep : GameInstance.makeMove E g db pid f t pr =
              (g, db, .failure "Illegal move") := by
            unfold GameInstance.makeMove
            rw [if_neg (by simp [hpt]), if_neg (by simp [hact]), hmv]
          rw [hstep]
          exact ⟨rfl, rfl, _, rfl⟩
      | legal mv next =>
          right
          set c : GameInstance Pos × DB × Option GameOverEvent :=
            GameInstance.checkGameEnd E
              { g with chess := next, moveCount := g.moveCount + 1, drawOffer := none }
              (Db.updateGameState
                (Db.recordMove db g.gameId (g.moveCount + 1) pid f t mv.san (E.fen next))
                g.gameId (E.fen next) (E.pgn next)) with hc
          have hstep : GameInstance.makeMove E g db pid f t pr =
              (c.1, c.2.1, .success mv (E.fen c.1.chess) (E.pgn c.1.chess) c.2.2
                (E.inCheck c.1.chess) c.1.moveCount) := by
            unfold GameInstance.makeMove
            rw [if_neg (by simp [hpt]), if_neg (by simp [hact]), hmv]
          rw [hstep]
          refine ⟨?_, ?_, ⟨mv.san, E.fen next, ?_⟩, ⟨_, _, _, _, _, _, rfl⟩⟩
          · rw [checkGameEnd_gameId]
          · rw [checkGameEnd_moveCount]
          · rw [checkGameEnd_moves]
            rfl
    · left
      have hstep : GameInstance.makeMove E g db pid f t pr =
          (g, db, .failure "Game is not active") := by
        unfold GameInstance.makeMove
        rw [if_neg (by simp [hpt]), if_pos (by simp [hact])]
      rw [hstep]
      exact ⟨rfl, rfl, _, rfl⟩
  · left
    have hstep : GameInstance.makeMove E g db pid f t pr =
        (g, db, .failure "Not your turn") := by
      unfold GameInstance.makeMove
      rw [if_pos (by simp [hpt])]
    rw [hstep]
    exact ⟨rfl, rfl, _, rfl⟩

/-- A list whose mapped keys form a contiguous range is sorted by that
key. -/
theorem sorted_of_map_range' {α : Type} (f : α → Nat) :
    ∀ (l : List α) (s n : Nat), l.map f = List.range' s n →
      l.Sorted (fun a b => f a ≤ f b) := by
  intro l
  induction l with
  | nil => intro s n _; exact List.sorted_nil
  | cons a tl ih =>
      intro s n h
      cases n with
      | zero => simp at h
      | succ m =>
          rw [List.range'_succ] at h
          simp only [List.map_cons, List.cons.injEq] at h
          obtain ⟨h1, h2⟩ := h
          refine List.sorted_cons.mpr ⟨?_, ih (s + 1) m h2⟩
          intro b hb
          have hmem : f b ∈ List.range' (s + 1) m := by
            rw [← h2]; exact List.mem_map_of_mem f hb
          have hle := (List.mem_range'_1.mp hmem).1
          omega

/-- The running invariant of the move trace: the session id is stable,
the counter advances by the number of accepted moves, and the game's move
rows stay numbered 1..moveCount in insertion order. -/
theorem runMoves_invariant {Pos : Type} (E : ChessEngine Pos)
    (attempts : List MoveAttempt) :
    ∀ (g : GameInstance Pos) (db : DB),
      (db.moves.filter (fun m => m.gameId = g.gameId)).map (fun m => m.moveNumber) =
        List.range' 1 g.moveCount →
      (runMoves E g db attempts).1.gameId = g.gameId ∧
      (runMoves E g db attempts).1.moveCount =
        g.moveCount + (runMoves E g db attempts).2.2 ∧
      ((runMoves E g db attempts).2.1.moves.filter
          (fun m => m.gameId = g.gameId)).map (fun m => m.moveNumber) =
        List.range' 1 (runMoves E g db attempts).1.moveCount := by
  induction attempts with
  | nil =>
      intro g db hinv
      exact ⟨rfl, by simp [runMoves], by simpa [runMoves] using hinv⟩
  | cons a rest ih =>
      intro g db hinv
      rcases makeMove_step_cases E g db a.playerId a.fromSq a.toSq a.promotion with
        ⟨h1, h2, e, he⟩ | ⟨h1, h2, ⟨san, fen, h3⟩, mv, fe, pg, gr, ic, n, hs⟩
      · have hred : runMoves E g db (a :: rest) = runMoves E g db rest := by
          simp only [runMoves, he, h1, h2]
        rw [hred]
        exact ih g db hinv
      · set r1 := (GameInstance.makeMove E g db a.playerId a.fromSq a.toSq a.promotion).1
          with hr1
        set rdb := (GameInstance.makeMove E g db a.playerId a.fromSq a.toSq a.promotion).2.1
          with hrdb
        have hred : runMoves E g db (a :: rest) =
            ((runMoves E r1 rdb rest).1, (runMoves E r1 rdb rest).2.1,
              (runMoves E r1 rdb rest).2.2 + 1) := by
          simp only [runMoves, hs]
        have hinv2 : (rdb.moves.filter (fun m => m.gameId = r1.gameId)).map
            (fun m => m.moveNumber) = List.range' 1 r1.moveCount := by
          rw [h3, h1, h2, List.filter_append, List.map_append, hinv]
          have hrow : (List.filter (fun m => decide (m.gameId = g.gameId))
              [(⟨g.gameId, g.moveCount + 1, a.playerId, a.fromSq, a.toSq, san, fen⟩ :
                MoveRow)]) =
              [⟨g.gameId, g.moveCount + 1, a.playerId, a.fromSq, a.toSq, san, fen⟩] := by
            simp
          rw [hrow]
          have := List.range'_1_concat 1 g.moveCount
          simp only [List.map_cons, List.map_nil] at *
          rw [this]
          simp [Nat.add_comm]
        obtain ⟨ha, hb, hc⟩ := ih r1 rdb hinv2
        rw [hred]
        refine ⟨ha.trans h1, ?_, ?_⟩
        · show (runMoves E r1 rdb rest).1.moveCount =
            g.moveCount + ((runMoves E r1 rdb rest).2.2 + 1)
          rw [hb, h2]
          omega
        · show ((runMoves E r1 rdb rest).2.1.moves.filter
              (fun m => m.gameId = g.gameId)).map (fun m => m.moveNumber) =
            List.range' 1 (runMoves E r1 rdb rest).1.moveCount
          rw [← h1]
          exact hc

/-- C7: starting from a fresh counter and an empty move log for the game,
after any sequence of attempts containing exactly N accepted moves, the
session's move counter equals N and the persisted, move-number-ordered
move log for that game has exactly N entries numbered 1..N. -/
theorem move_counter_matches_log {Pos : Type} (E : ChessEngine Pos)
    (g : GameInstance Pos) (db : DB) (attempts : List MoveAttempt)
    (h0 : g.moveCount = 0)
    (hm : db.moves.filter (fun m => m.gameId = g.gameId) = []) :
    (runMoves E g db attempts).1.moveCount = (runMoves E g db attempts).2.2 ∧
    (Db.getGameMoves (runMoves E g db attempts).2.1 g.gameId).length =
      (runMoves E g db attempts).2.2 ∧
    (Db.getGameMoves (runMoves E g db attempts).2.1 g.gameId).map
        (fun m => m.moveNumber) =
      List.range' 1 (runMoves E g db attempts).2.2 := by
  have hinv0 : (db.moves.filter (fun m => m.gameId = g.gameId)).map
      (fun m => m.moveNumber) = List.range' 1 g.moveCount := by
    rw [hm, h0]; rfl
  obtain ⟨hid, hcnt, hlog⟩ := runMoves_invariant E attempts g db hinv0
  have hcnt2 : (runMoves E g db attempts).1.moveCount =
      (runMoves E g db attempts).2.2 := by omega
  have hsorted : ((runMoves E g db attempts).2.1.moves.filter
      (fun m => m.gameId = g.gameId)).Sorted (fun a b => a.moveNumber ≤ b.moveNumber) :=
    sorted_of_map_range' _ _ 1 _ hlog
  have hs : Db.getGameMoves (runMoves E g db attempts).2.1 g.gameId =
      (runMoves E g db attempts).2.1.moves.filter (fun m => m.gameId = g.gameId) := by
    unfold Db.getGameMoves
    exact List.Sorted.insertionSort_eq hsorted
  refine ⟨hcnt2, ?_, ?_⟩
  · rw [hs]
    have hlen := congrArg List.length hlog
    simp only [List.length_map, List.length_range'] at hlen
    rw [hlen, hcnt2]
  · rw [hs, hlog, hcnt2]

/-- Witness for C7: after white's and black's accepted opening moves the
counter is 2 and the log is numbered 1, 2. -/
theorem move_counter_matches_log_witness :
    (runMoves toyEngine toyActiveGame toyDb
        [⟨"w1", "e2", "e4", none⟩, ⟨"b1", "e7", "e5", none⟩]).1.moveCount =
      (runMoves toyEngine toyActiveGame toyDb
        [⟨"w1", "e2", "e4", none⟩, ⟨"b1", "e7", "e5", none⟩]).2.2 ∧
    (Db.getGameMoves (runMoves toyEngine toyActiveGame toyDb
        [⟨"w1", "e2", "e4", none⟩, ⟨"b1", "e7", "e5", none⟩]).2.1 "g1").map
        (fun m => m.moveNumber) =
      List.range' 1 (runMoves toyEngine toyActiveGame toyDb
        [⟨"w1", "e2", "e4", none⟩, ⟨"b1", "e7", "e5", none⟩]).2.2 :=
  ⟨(move_counter_matches_log toyEngine toyActiveGame toyDb
      [⟨"w1", "e2", "e4", none⟩, ⟨"b1", "e7", "e5", none⟩] rfl rfl).1,
   (move_counter_matches_log toyEngine toyActiveGame toyDb
      [⟨"w1", "e2", "e4", none⟩, ⟨"b1", "e7", "e5", none⟩] rfl rfl).2.2⟩

/-- Witness for C2 on the two-player fixture. -/
theorem endGame_updates_both_stats_witness :
    Db.getPlayer (GameInstance.endGame toyActiveGame toyDb .white_wins).2 "w1" =
      some ⟨"w1", "Alice", 1, 0, 0, 3⟩ ∧
    Db.getPlayer (GameInstance.endGame toyActiveGame toyDb .white_wins).2 "b1" =
      some ⟨"b1", "Bob", 0, 1, 0, 0⟩ :=
  (endGame_updates_both_stats toyActiveGame toyDb "b1"
    ⟨"w1", "Alice", 0, 0, 0, 0⟩ ⟨"b1", "Bob", 0, 0, 0, 0⟩
    rfl (by decide) rfl rfl).1

/-- joinStep does not touch the ready-sent flag. -/
theorem joinStep_gameReadySent {Pos : Type} (g : GameInstance Pos) (sock pid : String)
    (c : Color) : (joinStep g sock pid c).gameReadySent = g.gameReadySent := by
  cases c <;> rfl

/-- joinStep does not touch the status. -/
theorem joinStep_status {Pos : Type} (g : GameInstance Pos) (sock pid : String)
    (c : Color) : (joinStep g sock pid c).status = g.status := by
  cases c <;> rfl

/-- joinStep cancels exactly the joining player's timer. -/
theorem joinStep_timers {Pos : Type} (g : GameInstance Pos) (sock pid : String)
    (c : Color) :
    (joinStep g sock pid c).disconnectTimers =
      g.disconnectTimers.filter (fun q => q ≠ pid) := by
  cases c <;> rfl

/-- Reduction of the join-game handler on a known player. -/
theorem handleJoinGame_eq {Pos : Type} (s : ServerState Pos) (sock gid pid : String)
    (g : GameInstance Pos) (c : Color)
    (hl : GameManager.lookupGame s.activeGames gid = some g)
    (hcol : g.getPlayerColor pid = some c) :
    SocketHandler.handleJoinGame s sock gid pid =
      (if (joinStep g sock pid c).whiteConnected ∧ (joinStep g sock pid c).blackConnected ∧
          (joinStep g sock pid c).status = Status.active ∧
          ¬ (joinStep g sock pid c).gameReadySent then
        ({ s with activeGames := GameManager.setGame s.activeGames gid
                    (let gj := joinStep g sock pid c
                     { gj with gameReadySent := true }) },
          [.gameState c, .playerConnected c, .gameReady])
      else
        ({ s with activeGames := GameManager.setGame s.activeGames gid
                    (joinStep g sock pid c) },
          [.gameState c, .playerConnected c])) := by
  unfold SocketHandler.handleJoinGame joinStep
  simp only [hl, hcol]
  rfl

/-- Reduction of the join-game handler on an unknown player. -/
theorem handleJoinGame_not_player {Pos : Type} (s : ServerState Pos)
    (sock gid pid : String) (g : GameInstance Pos)
    (hl : GameManager.lookupGame s.activeGames gid = some g)
    (hcol : g.getPlayerColor pid = none) :
    SocketHandler.handleJoinGame s sock gid pid =
      (s, [.errorMsg "Not a player in this game"]) := by
  unfold SocketHandler.handleJoinGame
  simp only [hl, hcol]

/-- C8: a disconnect timer firing after the game has left the active
status is a no-op; firing while still active ends the game with the other
color as winner and an abandonment result; and a rejoin cancels exactly
that player's pending timer, leaving the opponent's timer and the status
unchanged. -/
theorem disconnect_timer_protocol {Pos : Type} :
    (∀ (g : GameInstance Pos) (db : DB) (p : String), g.status ≠ Status.active →
      SocketHandler.timerFire g db p = (g, db, [])) ∧
    (∀ (g : GameInstance Pos) (db : DB) (p : String) (c : Color),
      g.status = Status.active → g.getPlayerColor p = some c →
      (SocketHandler.timerFire g db p).1.status = Status.completed ∧
      (SocketHandler.timerFire g db p).2.2 =
        [.gameOver ⟨"abandonment",
          some (if c = Color.white then Color.black else Color.white),
          (if c = Color.white then GameResult.black_wins else GameResult.white_wins),
          none,
          some (SocketHandler.colorText (some c) ++ " player disconnected")⟩]) ∧
    (∀ (s : ServerState Pos) (sock gid p : String) (g : GameInstance Pos) (c : Color),
      GameManager.lookupGame s.activeGames gid = some g →
      g.getPlayerColor p = some c →
      ∃ g2, GameManager.lookupGame
          (SocketHandler.handleJoinGame s sock gid p).1.activeGames gid = some g2 ∧
        g2.disconnectTimers = g.disconnectTimers.filter (fun q => q ≠ p) ∧
        g2.status = g.status) := by
  refine ⟨?_, ?_, ?_⟩
  · intro g db p hne
    unfold SocketHandler.timerFire
    rw [if_neg hne]
  · intro g db p c hact hcol
    constructor
    · unfold SocketHandler.timerFire
      rw [if_pos hact]
      simp [endGame_fst]
    · unfold SocketHandler.timerFire
      rw [if_pos hact, hcol]
      cases c <;> simp [SocketHandler.colorText]
  · intro s sock gid p g c hl hcol
    rw [handleJoinGame_eq s sock gid p g c hl hcol]
    split_ifs with h
    · exact ⟨_, lookup_setGame_self _ _ _,
        by simp [joinStep_timers], by simp [joinStep_status]⟩
    · exact ⟨_, lookup_setGame_self _ _ _,
        by simp [joinStep_timers], by simp [joinStep_status]⟩

/-- Witness for C8: firing on the completed fixture is a no-op, firing on
the active fixture completes it, and white's rejoin cancels only white's
timer. -/
theorem disconnect_timer_protocol_witness :
    SocketHandler.timerFire toyCompletedOfferGame toyCompletedDb "w1" =
      (toyCompletedOfferGame, toyCompletedDb, []) ∧
    (SocketHandler.timerFire toyTimerGame toyDb "w1").1.status = Status.completed ∧
    (∃ g2, GameManager.lookupGame
        (SocketHandler.handleJoinGame toyTimerState "sockW" "g1" "w1").1.activeGames
        "g1" = some g2 ∧
      g2.disconnectTimers = toyTimerGame.disconnectTimers.filter (fun q => q ≠ "w1") ∧
      g2.status = toyTimerGame.status) :=
  ⟨disconnect_timer_protocol.1 toyCompletedOfferGame toyCompletedDb "w1" (by decide),
   (disconnect_timer_protocol.2.1 toyTimerGame toyDb "w1" Color.white rfl (by decide)).1,
   disconnect_timer_protocol.2.2 toyTimerState "sockW" "g1" "w1" toyTimerGame Color.white
     rfl (by decide)⟩

/-- Counterexample to C9: over the full lifecycle trace — create, join,
both sockets connect (one game-ready), evict the live session, cold-start
restore it, both sockets reconnect — the game-ready broadcast is emitted
twice for the same game, because the ready-sent flag lives only in the
in-memory instance and restoration resets it. -/
theorem game_ready_twice_across_restore :
    countGameReady (c9j1.2 ++ c9j2.2 ++ c9j3.2 ++ c9j4.2) = 2 := by decide

/-- C9 amended: the game-ready broadcast is emitted at most once per live
Session instance — the join handler emits it only when the instance's
gameReadySent flag is still false and sets the flag in the stored
instance — but the flag is in-memory only: a Session rebuilt by
cold-start restoration starts with the flag clear, so the broadcast can
recur after eviction or restart. -/
theorem game_ready_once_per_instance {Pos : Type} :
    (∀ (s : ServerState Pos) (sock gid pid : String) (g : GameInstance Pos),
      GameManager.lookupGame s.activeGames gid = some g → g.gameReadySent = true →
      Emit.gameReady ∉ (SocketHandler.handleJoinGame s sock gid pid).2) ∧
    (∀ (s : ServerState Pos) (sock gid pid : String) (g : GameInstance Pos),
      GameManager.lookupGame s.activeGames gid = some g →
      Emit.gameReady ∈ (SocketHandler.handleJoinGame s sock gid pid).2 →
      g.gameReadySent = false ∧
      ∃ g2, GameManager.lookupGame
          (SocketHandler.handleJoinGame s sock gid pid).1.activeGames gid = some g2 ∧
        g2.gameReadySent = true) ∧
    (∀ (E : ChessEngine Pos) (gid w : String),
      (GameInstance.new E gid w).gameReadySent = false) := by
  refine ⟨?_, ?_, fun E gid w => rfl⟩
  · intro s sock gid pid g hl hsent
    cases hcol : g.getPlayerColor pid with
    | none =>
        rw [handleJoinGame_not_player s sock gid pid g hl hcol]
        simp
    | some c =>
        rw [handleJoinGame_eq s sock gid pid g c hl hcol,
          if_neg (by simp [joinStep_gameReadySent, hsent])]
        simp
  · intro s sock gid pid g hl hmem
    cases hcol : g.getPlayerColor pid with
    | none =>
        rw [handleJoinGame_not_player s sock gid pid g hl hcol] at hmem
        simp at hmem
    | some c =>
        rw [handleJoinGame_eq s sock gid pid g c hl hcol] at hmem ⊢
        split_ifs at hmem ⊢ with h
        · refine ⟨?_, _, lookup_setGame_self _ _ _, rfl⟩
          have hflag := h.2.2.2
          rw [joinStep_gameReadySent] at hflag
          simpa using hflag
        · simp at hmem

/-- Witness for the amended C9: on the fixture whose flag is already set,
a rejoin emits no game-ready. -/
theorem game_ready_once_per_instance_witness :
    Emit.gameReady ∉ (SocketHandler.handleJoinGame toyState "sockW" "g1" "w1").2 :=
  game_ready_once_per_instance.1 toyState "sockW" "g1" "w1" toyActiveGame rfl rfl

/-- C10: reconnect on a game whose durable record is completed and that
has no live Session returns the terminal reconnect result for any player
identifier — the color defaulting to black whenever the identifier is not
the white player — while the NotAPlayer rejection applies only on the
live-session path. -/
theorem reconnect_terminal_skips_player_check {Pos : Type} (E : ChessEngine Pos) :
    (∀ (s : ServerState Pos) (gid pid : String) (row : GameRow),
      GameManager.lookupGame s.activeGames gid = none →
      Db.getGame s.db gid = some row → row.status = Status.completed →
      GameManager.reconnectToGame E s gid pid =
        (s, .terminal gid pid
          (if pid = row.whitePlayerId then Color.white else Color.black)
          row.result row.fen)) ∧
    (∀ (s : ServerState Pos) (gid pid : String) (g : GameInstance Pos),
      GameManager.lookupGame s.activeGames gid = some g →
      g.getPlayerColor pid = none →
      GameManager.reconnectToGame E s gid pid =
        (s, .error "You are not in this game")) := by
  constructor
  · intro s gid pid row hl hrow hst
    unfold GameManager.reconnectToGame
    simp only [hl, hrow]
    rw [if_pos hst]
  · intro s gid pid g hl hcol
    unfold GameManager.reconnectToGame
    simp only [hl, hcol]

/-- Witness for C10: an identifier matching neither color still gets the
terminal result, with color black. -/
theorem reconnect_terminal_skips_player_check_witness :
    GameManager.reconnectToGame toyEngine toyTerminalState "g1" "nobody" =
      (toyTerminalState, .terminal "g1" "nobody" Color.black
        (some GameResult.white_wins) "fen-9") :=
  (reconnect_terminal_skips_player_check toyEngine).1 toyTerminalState "g1" "nobody"
    ⟨"g1", "w1", some "b1", .completed, some .white_wins, "fen-9", none⟩ rfl rfl rfl

end SealChess
